import Mathlib

/-!
Verification of the valuation engine of `scripts/valuation.ts`.

The TypeScript source is shallowly embedded over exact rational arithmetic
(`ℚ`).  JavaScript numbers are IEEE doubles; every claim settled here is a
sign / structural / exact-identity property on which exact rational
arithmetic and double arithmetic agree, except where noted at the claim.
Conventions used throughout the embedding:

* nullable numeric columns are `Option ℚ`, nullable strings `Option String`;
* the JavaScript `a || b` on numbers (null / 0 falsy) is `numOr`,
  on strings (null / "" falsy) is `strOr`; `a ?? b` is `Option.getD`;
* date strings are abstracted to their parsed epoch timestamp (`Int`):
  the source only uses `end_date` through `new Date(..).getTime()` ordering
  and `===` equality on rows coming from one database in one date format;
* `Math.sqrt` is modelled by `Rat.sqrt` (sign-faithful: it is `0` on
  non-positive input and strictly positive on positive rational input,
  which is all the Graham claims use);
* division by zero is `0` in `ℚ`; everywhere a settled claim depends on a
  quotient, the divisor is non-zero (hypotheses or concrete inputs);
* `Math.min(...xs)` / `Math.max(...xs)` over the spread of a possibly-empty
  list return `+Infinity` / `-Infinity` in JavaScript; they are modelled in
  `WithTop ℚ` / `WithBot ℚ` with `⊤` / `⊥` for the two infinities;
* decimal literals of the source are written as explicit fractions
  (`0.005` as `5 / 1000`, `0.66` as `66 / 100`, `22.5` as `45 / 2`, …)
  because the library's decimal-literal coercion into `ℚ` is irreducible
  and would block kernel evaluation of concrete instances;
* `new Date().toLocaleDateString('pt-BR')` — the one wall-clock read in
  `getFinancialData` (line 137) — is modelled by an explicit `now : String`
  parameter; `toLocaleDateString` applied to a *data* date is the pure
  function `formatDateBR`.
-/

namespace Iacoes

/-- JS `a || b` for a nullable number `a`: `null`/`undefined` and `0` are
falsy, so the default applies exactly when `a` is absent or zero. -/
def numOr (v : Option ℚ) (d : ℚ) : ℚ :=
  match v with
  | none => d
  | some x => if x = 0 then d else x

/-- JS `a || b` for a nullable string `a`: `null`/`undefined` and `""` are
falsy. -/
def strOr (v : Option String) (d : String) : String :=
  match v with
  | none => d
  | some s => if s = "" then d else s

/-- JS truthiness of a nullable number: present and non-zero. -/
def truthy (v : Option ℚ) : Bool :=
  match v with
  | none => false
  | some x => x != 0

/-- The numeric value of a nullable number where the source reads it after a
truthiness test (absent reads as 0, which never happens on the guarded
paths). -/
def jsVal (v : Option ℚ) : ℚ := v.getD 0

/-- `s.replace(/\.SA$/, '')`: drop one trailing `.SA` suffix. -/
def stripSA (s : String) : String :=
  if s.endsWith ".SA" then s.dropRight 3 else s

/-- `s.replace(/[0-9F]+$/, '')`: drop the maximal trailing run of decimal
digits and `F` characters (Brazilian share-class / fractional suffix). -/
def stripTrailingClass (s : String) : String :=
  String.mk (((s.toList).reverse.dropWhile (fun c => c.isDigit || c == 'F')).reverse)

/-- `new Date().toLocaleDateString('pt-BR')` applied to a stored data date
(a pure function of the date; no claim depends on the exact rendering). -/
def formatDateBR (d : Int) : String := toString d

-- --- Raw row types (the five Supabase tables), nullable columns ---

/-- One `brapi_income_statements` row (the columns `valuation.ts` reads). -/
structure IncomeRow where
  symbol : String
  period : String
  type : Option String
  end_date : Int
  net_income : Option ℚ
  ebit : Option ℚ
  total_revenue : Option ℚ
  gross_profit : Option ℚ
  interest_expense : Option ℚ
deriving DecidableEq, Repr

/-- One `brapi_balance_sheets` row. -/
structure BalanceRow where
  symbol : String
  period : String
  type : Option String
  end_date : Int
  long_term_debt : Option ℚ
  short_long_term_debt : Option ℚ
  cash : Option ℚ
  short_term_investments : Option ℚ
  total_stockholder_equity : Option ℚ
  total_assets : Option ℚ
  total_current_assets : Option ℚ
  total_current_liabilities : Option ℚ
deriving DecidableEq, Repr

/-- One `brapi_cashflows` row. -/
structure CashFlowRow where
  symbol : String
  period : String
  type : Option String
  end_date : Int
  depreciation : Option ℚ
  total_cash_from_operating_activities : Option ℚ
  capital_expenditures : Option ℚ
deriving DecidableEq, Repr

/-- One `brapi_quotes` row (the quote / indicator columns the code reads). -/
structure BrapiQuote where
  symbol : String
  beta5y : Option ℚ
  revenueGrowth : Option ℚ
  regularMarketPrice : Option ℚ
  marketCap : Option ℚ
  sharesOutstanding : Option ℚ
  earningsPerShare : Option ℚ
  pl : Option ℚ
  priceEarnings : Option ℚ
  pvp : Option ℚ
  priceToBook : Option ℚ
  lpa : Option ℚ
  vpa : Option ℚ
  roe : Option ℚ
  roic : Option ℚ
  net_margin : Option ℚ
  ebitda_margin : Option ℚ
  enterpriseToEbitda : Option ℚ
  ev_ebit : Option ℚ
  debt_ebitda : Option ℚ
  regularMarketChangePercent : Option ℚ
  fiftyTwoWeekChange : Option ℚ
  fiftyTwoWeekLow : Option ℚ
  fiftyTwoWeekHigh : Option ℚ
  averageDailyVolume3Month : Option ℚ
  enterpriseValue : Option ℚ
  bookValue : Option ℚ
  dividendYield : Option ℚ
  longName : Option String
  shortName : Option String
  sector : Option String
  industry : Option String
  longBusinessSummary : Option String
deriving DecidableEq, Repr, Inhabited

/-- One `brapi_dividends` row (passed through untouched by the engine). -/
structure DividendRow where
  ticker : String
  amount : Option ℚ
  ex_date : Int
deriving DecidableEq, Repr

/-- The bundle returned by `fetchFinancials` (the excluded fetch layer):
the raw row sets handed to the normalizer. -/
structure SupabaseFinancials where
  income : List IncomeRow
  balance : List BalanceRow
  cashFlow : List CashFlowRow
  brapi : List BrapiQuote
  dividends : List DividendRow
deriving DecidableEq, Repr

-- --- Helper functions of valuation.ts (lines 12-55) ---

/-- `filterByTicker` (valuation.ts lines 12-17), generic over the row type
through its `symbol` accessor: exact case-insensitive symbol match first,
else prefix match on the ticker with trailing `[0-9F]+` stripped. -/
def filterByTicker {α : Type} (sym : α → String) (data : List α) (ticker : String) : List α :=
  let exact := data.filter (fun d => (sym d).toUpper == ticker.toUpper)
  if exact.length > 0 then exact
  else
    let root := stripTrailingClass ticker.toUpper
    data.filter (fun d => (sym d).toUpper.startsWith root)

/-- Stable insertion preserving descending key order (model of the stable
JavaScript `Array.prototype.sort` with comparator `b.key − a.key`). -/
def insertDesc {α : Type} (key : α → Int) (x : α) : List α → List α
  | [] => [x]
  | y :: ys => if key y > key x then y :: insertDesc key x ys else x :: y :: ys

/-- Stable sort, descending by `key` (JS `sort((a, b) => key b - key a)`). -/
def stableSortDesc {α : Type} (key : α → Int) : List α → List α
  | [] => []
  | x :: xs => insertDesc key x (stableSortDesc key xs)

/-- `getLatest` (lines 19-22): most recent row by `end_date`, `null` when
empty. -/
def getLatest {α : Type} (endDate : α → Int) (data : List α) : Option α :=
  (stableSortDesc endDate data).head?

/-- Statement cadence. -/
inductive PeriodKind where
  | quarterly
  | yearly
deriving DecidableEq, Repr

/-- `classifyPeriod` (lines 24-28). -/
def classifyPeriod (period : String) : PeriodKind :=
  if period = "" then .quarterly
  else if period.toUpper.startsWith "FY" || period.length = 4 then .yearly
  else .quarterly

/-- `normalizeType` (lines 30-35). -/
def normalizeType (rawType : Option String) (period : Option String) : PeriodKind :=
  let n := (rawType.getD "").toLower
  if n ∈ ["yearly", "annual", "anual", "fy"] then .yearly
  else if n ∈ ["quarterly", "quarter"] || n.startsWith "q" then .quarterly
  else classifyPeriod (strOr period (strOr rawType ""))

/-- The string the source stores back into the row's `type` field. -/
def periodKindString : PeriodKind → String
  | .yearly => "yearly"
  | .quarterly => "quarterly"

/-- `normPercent` (lines 37-42): values with magnitude above 2 are read as
percentages. -/
def normPercent (v : Option ℚ) : Option ℚ :=
  match v with
  | none => none
  | some x => if |x| > 2 then some (x / 100) else some x

/-- `pickPos` (lines 44-48): keep only strictly positive values. -/
def pickPos (v : Option ℚ) : Option ℚ :=
  match v with
  | none => none
  | some x => if x > 0 then some x else none

/-- `getTypeFromTicker` (lines 50-55). -/
def getTypeFromTicker (t : String) : String :=
  if t.endsWith "11" then "UNT"
  else if t.endsWith "4" then "PN"
  else if t.endsWith "3" then "ON"
  else "ON"

-- --- Output record types ---

/-- `FundamentalData` (assembled at valuation.ts lines 131-157). -/
structure FundamentalData where
  symbol : String
  name : String
  sector : String
  subSector : String
  type : String
  price : ℚ
  date : String
  min52Week : ℚ
  max52Week : ℚ
  volMed2m : ℚ
  marketCap : ℚ
  firmValue : ℚ
  lastBalanceDate : String
  sharesOutstanding : ℚ
  changeDay : ℚ
  change12m : ℚ
  pl : ℚ
  pvp : ℚ
  pebit : ℚ
  psr : ℚ
  divYield : ℚ
  evEbitda : ℚ
  evEbit : ℚ
  lpa : ℚ
  vpa : ℚ
  grossMargin : ℚ
  ebitMargin : ℚ
  ebitdaMargin : ℚ
  netMargin : ℚ
  roic : ℚ
  roe : ℚ
  currentLiquidity : ℚ
  debtEquity : ℚ
  debtEbitda : ℚ

/-- `FinancialData` — the normalized snapshot returned at lines 159-175.
The `_raw*` lists keep the source's field names without the underscore. -/
structure FinancialData where
  ticker : String
  price : ℚ
  currency : String
  sharesOutstanding : ℚ
  beta : ℚ
  wacc : ℚ
  growthRate : ℚ
  roe : ℚ
  payoutRatio : ℚ
  revenue : ℚ
  ebit : ℚ
  netIncome : ℚ
  interestExpenses : ℚ
  taxRate : ℚ
  equity : ℚ
  debt : ℚ
  cashAndEquivalents : ℚ
  investedCapital : ℚ
  freeCashFlow : ℚ
  depreciation : ℚ
  volatility : ℚ
  sectorPE : ℚ
  sectorEVEBITDA : ℚ
  currentPE : ℚ
  currentEVEBITDA : ℚ
  currentEPS : ℚ
  rawIncome : List IncomeRow
  rawBalance : List BalanceRow
  rawCashFlow : List CashFlowRow
  rawDividends : List DividendRow
  fundamentals : FundamentalData
  businessSummary : Option String

-- --- constants.ts values used by valuation.ts ---

/-- `SCENARIO_PRESETS.BASE.beta` (constants.ts). -/
def SCENARIO_BASE_beta : ℚ := 1

/-- `SCENARIO_PRESETS.BASE.projectedRevenueGrowth` (constants.ts). -/
def SCENARIO_BASE_projectedRevenueGrowth : ℚ := 5 / 100

-- --- getFinancialData (valuation.ts lines 59-176), after the fetch ---

/-- The quote-row lookup of line 69:
`rawBrapi.find(b => b.symbol === t) || rawBrapi.find(b => b.symbol.startsWith(t.replace(/[0-9F]+$/, '')))`.
Both probes compare case-SENSITIVELY (unlike `filterByTicker`). -/
def brapiLookup (rawBrapi : List BrapiQuote) (t : String) : Option BrapiQuote :=
  (rawBrapi.find? (fun b => b.symbol == t)).orElse
    (fun _ => rawBrapi.find? (fun b => b.symbol.startsWith (stripTrailingClass t)))

/-- Line 60: `ticker.toUpperCase().trim().replace(/\.SA$/, '')`. -/
def normTicker (ticker : String) : String := stripSA ticker.toUpper.trim

/-- The shares-outstanding resolution of lines 94-98:
market cap ÷ price, else the quote's shares field, else net income ÷ EPS
(when both are truthy), else the synthetic default 1,000,000. -/
def computeShares (mCap price : ℚ) (brapi : BrapiQuote) (baseIncome : Option IncomeRow) : ℚ :=
  let shares := if mCap > 0 ∧ price > 0 then mCap / price else numOr brapi.sharesOutstanding 0
  let shares :=
    if shares = 0 ∧ truthy (baseIncome.bind (fun i => i.net_income)) ∧ truthy brapi.earningsPerShare
    then jsVal (baseIncome.bind (fun i => i.net_income)) / jsVal brapi.earningsPerShare
    else shares
  if shares = 0 then 1000000 else shares

/-- The guard of line 71: some of the four mandatory categories has no row
for the resolved ticker (`!tickerBrapi || !tickerIncome.length || ...`). -/
def missingAny (supa : SupabaseFinancials) (t : String) : Bool :=
  (brapiLookup supa.brapi t).isNone ||
  (filterByTicker (fun i => i.symbol) supa.income t).isEmpty ||
  (filterByTicker (fun b => b.symbol) supa.balance t).isEmpty ||
  (filterByTicker (fun c => c.symbol) supa.cashFlow t).isEmpty

/-- The failure message of lines 72-77, naming each missing category. -/
def missingMessage (supa : SupabaseFinancials) (t : String) : String :=
  let missing :=
    (if (brapiLookup supa.brapi t).isNone then ["cotação"] else []) ++
    (if (filterByTicker (fun i => i.symbol) supa.income t).isEmpty then ["DRE"] else []) ++
    (if (filterByTicker (fun b => b.symbol) supa.balance t).isEmpty then ["balanço"] else []) ++
    (if (filterByTicker (fun c => c.symbol) supa.cashFlow t).isEmpty
      then ["fluxo de caixa"] else [])
  "Dados incompletos para " ++ t ++ " (faltando: " ++ String.intercalate ", " missing ++ ")"

/-- `getFinancialData` (lines 59-176) downstream of the `fetchFinancials`
network call: a pure function of the raw row bundle.  `now` is the string
`new Date().toLocaleDateString('pt-BR')` read at line 137 — the only
wall-clock input of the normalizer. -/
def getFinancialData (ticker : String) (supa : SupabaseFinancials) (now : String) :
    Except String FinancialData :=
  let t := normTicker ticker
  let tickerIncome := filterByTicker (fun i => i.symbol) supa.income t
  let tickerBalance := filterByTicker (fun b => b.symbol) supa.balance t
  let tickerCashFlow := filterByTicker (fun c => c.symbol) supa.cashFlow t
  let tickerBrapi? := brapiLookup supa.brapi t
  if missingAny supa t then
    .error (missingMessage supa t)
  else
    let tickerBrapi := tickerBrapi?.getD default
    let betaFromBrapi := pickPos tickerBrapi.beta5y
    let revGrowth := normPercent tickerBrapi.revenueGrowth
    let defaultBeta := betaFromBrapi.getD SCENARIO_BASE_beta
    let defaultRevGrowth := revGrowth.getD SCENARIO_BASE_projectedRevenueGrowth
    let yearlyIncome := stableSortDesc (fun i => i.end_date)
      (tickerIncome.filter (fun d => classifyPeriod d.period == .yearly))
    let yearlyCF := stableSortDesc (fun c => c.end_date)
      (tickerCashFlow.filter (fun d => classifyPeriod d.period == .yearly))
    let yearlyBal := stableSortDesc (fun b => b.end_date)
      (tickerBalance.filter (fun d => classifyPeriod d.period == .yearly))
    let baseIncome := yearlyIncome.head?.orElse
      (fun _ => getLatest (fun i => i.end_date) tickerIncome)
    let baseDate := baseIncome.map (fun i => i.end_date)
    let baseBalance := (yearlyBal.find? (fun b => baseDate == some b.end_date)).orElse
      (fun _ => getLatest (fun b => b.end_date) tickerBalance)
    let baseCF := (yearlyCF.find? (fun c => baseDate == some c.end_date)).orElse
      (fun _ => getLatest (fun c => c.end_date) tickerCashFlow)
    let price := numOr tickerBrapi.regularMarketPrice 10
    let mCap := numOr tickerBrapi.marketCap 0
    let shares := computeShares mCap price tickerBrapi baseIncome
    let grossDebt := numOr (baseBalance.bind (fun b => b.long_term_debt)) 0 +
      numOr (baseBalance.bind (fun b => b.short_long_term_debt)) 0
    let cash := numOr (baseBalance.bind (fun b => b.cash)) 0 +
      numOr (baseBalance.bind (fun b => b.short_term_investments)) 0
    let netDebt := grossDebt - cash
    let depreciation := numOr (baseCF.bind (fun c => c.depreciation)) 0
    let ebit := numOr (baseIncome.bind (fun i => i.ebit)) 0
    let ebitda := ebit + depreciation
    let equity := numOr (baseBalance.bind (fun b => b.total_stockholder_equity))
      (if truthy tickerBrapi.bookValue then jsVal tickerBrapi.bookValue * shares else 0)
    let investedCapital := equity + netDebt
    let ocf := numOr (baseCF.bind (fun c => c.total_cash_from_operating_activities)) 0
    let capex := numOr (baseCF.bind (fun c => c.capital_expenditures)) 0
    let freeCashFlow := ocf + capex
    let netIncome := numOr (baseIncome.bind (fun i => i.net_income)) 0
    let revenue := numOr (baseIncome.bind (fun i => i.total_revenue)) 0
    let pl := numOr tickerBrapi.pl (numOr tickerBrapi.priceEarnings
      (if netIncome > 0 then mCap / netIncome else 0))
    let pvp := numOr tickerBrapi.pvp (numOr tickerBrapi.priceToBook
      (if equity > 0 then mCap / equity else 0))
    let lpa := numOr tickerBrapi.lpa (numOr tickerBrapi.earningsPerShare (netIncome / shares))
    let vpa := numOr tickerBrapi.vpa (numOr tickerBrapi.bookValue (equity / shares))
    let roe := if truthy tickerBrapi.roe then jsVal tickerBrapi.roe / 100
      else if equity > 0 then netIncome / equity else 0
    let roic := if truthy tickerBrapi.roic then jsVal tickerBrapi.roic / 100
      else if equity + netDebt > 0 then ebit * (66 / 100) / (equity + netDebt) else 0
    let netMargin := if truthy tickerBrapi.net_margin then jsVal tickerBrapi.net_margin / 100
      else if revenue > 0 then netIncome / revenue else 0
    let ebitdaMargin := if truthy tickerBrapi.ebitda_margin then jsVal tickerBrapi.ebitda_margin / 100
      else if revenue > 0 then ebitda / revenue else 0
    let evEbitda := numOr tickerBrapi.enterpriseToEbitda
      (if ebitda > 0 then (mCap + netDebt) / ebitda else 0)
    let evEbit := numOr tickerBrapi.ev_ebit (if ebit > 0 then (mCap + netDebt) / ebit else 0)
    let debtEbitda := numOr tickerBrapi.debt_ebitda (if ebitda > 0 then netDebt / ebitda else 0)
    let changeDay := if truthy tickerBrapi.regularMarketChangePercent
      then jsVal tickerBrapi.regularMarketChangePercent / 100 else 0
    let change12m := if truthy tickerBrapi.fiftyTwoWeekChange
      then jsVal tickerBrapi.fiftyTwoWeekChange / 100 else 0
    let currentAssets := numOr (baseBalance.bind (fun b => b.total_current_assets)) 0
    let currentLiab := numOr (baseBalance.bind (fun b => b.total_current_liabilities)) 0
    let fundamentals : FundamentalData := {
      symbol := t
      name := strOr tickerBrapi.longName (strOr tickerBrapi.shortName t)
      sector := strOr tickerBrapi.sector "-"
      subSector := strOr tickerBrapi.industry "-"
      type := getTypeFromTicker t
      price := price
      date := now
      min52Week := numOr tickerBrapi.fiftyTwoWeekLow 0
      max52Week := numOr tickerBrapi.fiftyTwoWeekHigh 0
      volMed2m := numOr tickerBrapi.averageDailyVolume3Month 0
      marketCap := mCap
      firmValue := numOr tickerBrapi.enterpriseValue (mCap + netDebt)
      lastBalanceDate := match baseDate with
        | some d => formatDateBR d
        | none => "-"
      sharesOutstanding := shares
      changeDay := changeDay
      change12m := change12m
      pl := pl
      pvp := pvp
      pebit := if ebit > 0 then mCap / ebit else 0
      psr := if revenue > 0 then mCap / revenue else 0
      divYield := numOr tickerBrapi.dividendYield 0
      evEbitda := evEbitda
      evEbit := evEbit
      lpa := lpa
      vpa := vpa
      grossMargin := if revenue > 0
        then numOr (baseIncome.bind (fun i => i.gross_profit)) 0 / revenue else 0
      ebitMargin := if revenue > 0 then ebit / revenue else 0
      ebitdaMargin := ebitdaMargin
      netMargin := netMargin
      roic := roic
      roe := roe
      currentLiquidity := if currentLiab > 0 then currentAssets / currentLiab else 0
      debtEquity := if equity > 0 then grossDebt / equity else 0
      debtEbitda := debtEbitda }
    .ok {
      ticker := t
      price := price
      currency := "BRL"
      sharesOutstanding := shares
      beta := defaultBeta
      wacc := 12 / 100
      growthRate := defaultRevGrowth
      roe := roe
      payoutRatio := 25 / 100
      revenue := revenue
      ebit := ebit
      netIncome := netIncome
      interestExpenses := |numOr (baseIncome.bind (fun i => i.interest_expense)) 0|
      taxRate := 34 / 100
      equity := equity
      debt := grossDebt
      cashAndEquivalents := cash
      investedCapital := investedCapital
      freeCashFlow := freeCashFlow
      depreciation := depreciation
      volatility := 30 / 100
      sectorPE := 8
      sectorEVEBITDA := 6
      currentPE := pl
      currentEVEBITDA := evEbitda
      currentEPS := lpa
      rawIncome := tickerIncome.map
        (fun i => { i with type := some (periodKindString (normalizeType i.type (some i.period))) })
      rawBalance := tickerBalance.map
        (fun b => { b with type := some (periodKindString (normalizeType b.type (some b.period))) })
      rawCashFlow := tickerCashFlow.map
        (fun c => { c with type := some (periodKindString (normalizeType c.type (some c.period))) })
      rawDividends := supa.dividends
      fundamentals := fundamentals
      businessSummary := match tickerBrapi.longBusinessSummary with
        | none => none
        | some s => if s.trim = "" then none else some s.trim }

-- --- Assumptions, weights and result types ---

/-- `ValuationAssumptions` (the fields `valuation.ts` reads). -/
structure ValuationAssumptions where
  riskFreeRate : ℚ
  equityRiskPremium : ℚ
  beta : ℚ
  costOfDebt : ℚ
  perpetualGrowth : ℚ
  projectedRevenueGrowth : ℚ
deriving DecidableEq, Repr

/-- `ValuationWeights`: one weight per method. -/
structure ValuationWeights where
  DCF : ℚ
  GORDON : ℚ
  EVA : ℚ
  MULTIPLES : ℚ
  GRAHAM : ℚ
deriving DecidableEq, Repr

/-- `DEFAULT_WEIGHTS.MATURE` (constants.ts). -/
def DEFAULT_WEIGHTS_MATURE : ValuationWeights :=
  { DCF := 40 / 100, GORDON := 10 / 100, EVA := 15 / 100, MULTIPLES := 15 / 100,
    GRAHAM := 20 / 100 }

/-- `ValuationMethodType`. -/
inductive ValuationMethodType where
  | DCF
  | GORDON
  | EVA
  | MULTIPLES
  | GRAHAM
deriving DecidableEq, Repr, Inhabited

/-- `CalculationTrace` (the fields `performValuation` fills in). -/
structure CalculationTrace where
  formula : String
  inputs : List (String × ℚ)
  steps : List String
  finalResult : ℚ
deriving DecidableEq, Repr, Inhabited

/-- `ValuationResult` — one per method. -/
structure ValuationResult where
  method : ValuationMethodType
  fairValue : ℚ
  weight : ℚ
  upside : ℚ
  details : String
  trace : CalculationTrace
deriving DecidableEq, Repr, Inhabited

/-- One sensitivity-grid cell. -/
structure SensitivityCell where
  wacc : ℚ
  growth : ℚ
  fairValue : ℚ
deriving DecidableEq, Repr

/-- `priceRange`: JS `Math.min(...xs)` / `Math.max(...xs)` of a possibly
empty list, so min lives in `WithTop ℚ` (`⊤` = `+Infinity`) and max in
`WithBot ℚ` (`⊥` = `-Infinity`). -/
structure PriceRange where
  min : WithTop ℚ
  max : WithBot ℚ
deriving DecidableEq, Repr

/-- `ComprehensiveValuation`. -/
structure ComprehensiveValuation where
  ticker : String
  currentPrice : ℚ
  weightedFairValue : ℚ
  calculatedWacc : ℚ
  totalUpside : ℚ
  results : List ValuationResult
  priceRange : PriceRange
  sensitivityMatrix : List (List SensitivityCell)

/-- `Math.min(...l)`: fold of binary `min` with identity `+Infinity`. -/
def jsMinList (l : List ℚ) : WithTop ℚ :=
  l.foldr (fun x m => match m with
    | none => some x
    | some y => some (min x y)) none

/-- `Math.max(...l)`: fold of binary `max` with identity `-Infinity`. -/
def jsMaxList (l : List ℚ) : WithBot ℚ :=
  l.foldr (fun x m => match m with
    | none => some x
    | some y => some (max x y)) none

-- --- calculateWacc (valuation.ts lines 180-194) ---

/-- The pair returned by `calculateWacc`. -/
structure WaccResult where
  wacc : ℚ
  ke : ℚ
deriving DecidableEq, Repr

/-- `calculateWacc` (lines 180-194): CAPM cost of equity; implied cost of
debt when interest ÷ debt lies in [1%, 60%], else the assumption's default;
capital weights by market equity and gross debt; all-equity fallback when
`E + D = 0`. -/
def calculateWacc (data : FinancialData) (a : ValuationAssumptions) : WaccResult :=
  let ke := a.riskFreeRate + a.beta * a.equityRiskPremium
  let rawKd :=
    if data.debt > 0 ∧ data.interestExpenses > 0 then
      let implied := data.interestExpenses / data.debt
      if implied ≥ 1 / 100 ∧ implied ≤ 60 / 100 then implied else a.costOfDebt
    else a.costOfDebt
  let kdNet := rawKd * (1 - 34 / 100)
  let E := data.price * data.sharesOutstanding
  let D := data.debt
  let V := E + D
  if V = 0 then { wacc := ke, ke := ke }
  else { wacc := ke * E / V + kdNet * D / V, ke := ke }

-- --- the five valuation methods (lines 198-242) ---

/-- `calcDCF` (lines 198-212).  NOTE the source multiplies the base free
cash flow by `(1 + gRev)` once BEFORE the 5-year loop and once more per
iteration, so the year-`i` flow carries `i + 1` growth factors. -/
def calcDCF (data : FinancialData) (wacc gPerp gRev : ℚ) : ℚ :=
  let baseFCF := data.freeCashFlow
  let s := ([1, 2, 3, 4, 5] : List ℕ).foldl
    (fun (s : ℚ × ℚ) (i : ℕ) =>
      let c := s.1 * (1 + gRev)
      (c, s.2 + c / (1 + wacc) ^ i))
    (baseFCF * (1 + gRev), 0)
  let termFCF := s.1 * (1 + gPerp)
  let termVal := termFCF / (wacc - gPerp)
  let pvTerm := termVal / (1 + wacc) ^ 5
  let ev := s.2 + pvTerm
  let eqVal := ev + data.cashAndEquivalents - data.debt
  max 0 (eqVal / data.sharesOutstanding)

/-- `calcGordon` (lines 214-218): no floor — a negative EPS with `ke > g`
yields a negative value. -/
def calcGordon (data : FinancialData) (ke g : ℚ) : ℚ :=
  let d1 := data.currentEPS * (1 + g)
  if ke ≤ g then 0 else d1 / (ke - g)

/-- `calcGraham` (lines 220-225); `Math.sqrt` modelled by `Rat.sqrt`. -/
def calcGraham (data : FinancialData) : ℚ :=
  let lpa := data.currentEPS
  let vpa := if data.sharesOutstanding > 0 then data.equity / data.sharesOutstanding else 0
  if lpa ≤ 0 ∨ vpa ≤ 0 then 0 else Rat.sqrt (45 / 2 * lpa * vpa)

/-- `calcEVA` (lines 227-235). -/
def calcEVA (data : FinancialData) (wacc gRev : ℚ) : ℚ :=
  let year1Ebit := data.ebit * (1 + gRev) * (1 + gRev)
  let nopat := year1Ebit * (66 / 100)
  let capCharge := data.investedCapital * wacc
  let eva := nopat - capCharge
  let mva := eva / wacc
  let eqVal := data.investedCapital + mva - data.debt + data.cashAndEquivalents
  max 0 (eqVal / data.sharesOutstanding)

/-- `calcMultiples` (lines 237-242): no floor — negative earnings or EBIT
yield a negative blend. -/
def calcMultiples (data : FinancialData) : ℚ :=
  let byPE := data.netIncome * data.sectorPE / data.sharesOutstanding
  let impliedEV := data.ebit * data.sectorEVEBITDA
  let byEBITDA := (impliedEV - data.debt + data.cashAndEquivalents) / data.sharesOutstanding
  (byPE + byEBITDA) / 2

-- --- performValuation (lines 246-297) ---

/-- The `trace` helper local to `performValuation` (lines 261-263). -/
def mkTrace (formula : String) (val : ℚ) : CalculationTrace :=
  { formula := formula, inputs := [], steps := [], finalResult := val }

/-- The weight sum `w.DCF + w.GORDON + w.EVA + w.MULTIPLES + w.GRAHAM`
(line 258). -/
def totalWeight (w : ValuationWeights) : ℚ :=
  w.DCF + w.GORDON + w.EVA + w.MULTIPLES + w.GRAHAM

/-- `performValuation` (lines 246-297). -/
def performValuation (data : FinancialData) (assumptions : ValuationAssumptions)
    (customWeights : Option ValuationWeights) : ComprehensiveValuation :=
  let wr := calculateWacc data assumptions
  let wacc := wr.wacc
  let ke := wr.ke
  let gPerp := assumptions.perpetualGrowth
  let gRev := assumptions.projectedRevenueGrowth
  let dcf := calcDCF data wacc gPerp gRev
  let gordon := calcGordon data ke gPerp
  let graham := calcGraham data
  let eva := calcEVA data wacc gRev
  let multiples := calcMultiples data
  let w := customWeights.getD DEFAULT_WEIGHTS_MATURE
  let totalW := totalWeight w
  let weighted := (dcf * w.DCF + gordon * w.GORDON + eva * w.EVA +
    multiples * w.MULTIPLES + graham * w.GRAHAM) / totalW
  let results : List ValuationResult := [
    { method := .DCF, fairValue := dcf, weight := w.DCF / totalW,
      upside := dcf / data.price - 1, details := "FCD", trace := mkTrace "DCF" dcf },
    { method := .GORDON, fairValue := gordon, weight := w.GORDON / totalW,
      upside := gordon / data.price - 1, details := "Gordon", trace := mkTrace "Gordon" gordon },
    { method := .EVA, fairValue := eva, weight := w.EVA / totalW,
      upside := eva / data.price - 1, details := "EVA", trace := mkTrace "EVA" eva },
    { method := .MULTIPLES, fairValue := multiples, weight := w.MULTIPLES / totalW,
      upside := multiples / data.price - 1, details := "Múltiplos",
      trace := mkTrace "Múltiplos" multiples },
    { method := .GRAHAM, fairValue := graham, weight := w.GRAHAM / totalW,
      upside := graham / data.price - 1, details := "Graham", trace := mkTrace "Graham" graham }]
  let values := (results.map (fun r => r.fairValue)).filter (fun v => v > 0)
  let matrix : List (List SensitivityCell) :=
    ([-2, -1, 0, 1, 2] : List ℤ).map (fun wStep =>
      let simW := wacc + wStep * (5 / 1000)
      ([-2, -1, 0, 1, 2] : List ℤ).map (fun gStep =>
        let simG := gPerp + gStep * (5 / 1000)
        { wacc := simW, growth := simG, fairValue := calcDCF data simW simG gRev }))
  { ticker := data.ticker
    currentPrice := data.price
    weightedFairValue := weighted
    calculatedWacc := wacc
    totalUpside := weighted / data.price - 1
    results := results
    priceRange := { min := jsMinList values, max := jsMaxList values }
    sensitivityMatrix := matrix }

-- --- Spec-side reference definitions and claim-level accessors ---

/-- The DCF recurrence as the specification states it (§4.3): the year-`i`
projected free cash flow is the base flow compounded `i` times at the
revenue-growth rate, each year discounted at WACC; the terminal value is the
year-5 flow grown one more period at perpetual growth over
`wacc − gPerp`, discounted back 5 periods; fair value =
`(ΣPV + PV(terminal) + cash − debt) / shares`. -/
def specDCF (data : FinancialData) (wacc gPerp gRev : ℚ) : ℚ :=
  let b := data.freeCashFlow
  let pvCF := b * (1 + gRev) ^ 1 / (1 + wacc) ^ 1 + b * (1 + gRev) ^ 2 / (1 + wacc) ^ 2 +
    b * (1 + gRev) ^ 3 / (1 + wacc) ^ 3 + b * (1 + gRev) ^ 4 / (1 + wacc) ^ 4 +
    b * (1 + gRev) ^ 5 / (1 + wacc) ^ 5
  let termVal := b * (1 + gRev) ^ 5 * (1 + gPerp) / (wacc - gPerp)
  let pvTerm := termVal / (1 + wacc) ^ 5
  (pvCF + pvTerm + data.cashAndEquivalents - data.debt) / data.sharesOutstanding

/-- The recurrence `calcDCF` actually implements: the year-`i` flow carries
`i + 1` growth factors (one extra compounding before the loop), the terminal
value builds on the base flow compounded 6 times, and the per-share result
is floored at 0. -/
def refDCFCompounded (data : FinancialData) (wacc gPerp gRev : ℚ) : ℚ :=
  let b := data.freeCashFlow
  let pvCF := b * (1 + gRev) ^ 2 / (1 + wacc) ^ 1 + b * (1 + gRev) ^ 3 / (1 + wacc) ^ 2 +
    b * (1 + gRev) ^ 4 / (1 + wacc) ^ 3 + b * (1 + gRev) ^ 5 / (1 + wacc) ^ 4 +
    b * (1 + gRev) ^ 6 / (1 + wacc) ^ 5
  let termVal := b * (1 + gRev) ^ 6 * (1 + gPerp) / (wacc - gPerp)
  let pvTerm := termVal / (1 + wacc) ^ 5
  max 0 ((pvCF + pvTerm + data.cashAndEquivalents - data.debt) / data.sharesOutstanding)

/-- Grid cell lookup: row `i`, column `j` (zero-indexed). -/
def cellAt (m : List (List SensitivityCell)) (i j : ℕ) : Option SensitivityCell :=
  (m.get? i).bind (fun row => row.get? j)

/-- All five weights multiplied by a constant. -/
def scaleWeights (c : ℚ) (w : ValuationWeights) : ValuationWeights :=
  { DCF := c * w.DCF, GORDON := c * w.GORDON, EVA := c * w.EVA,
    MULTIPLES := c * w.MULTIPLES, GRAHAM := c * w.GRAHAM }

/-- Overwrite the one wall-clock-derived field (`fundamentals.date`). -/
def setFundDate (fd : FinancialData) (s : String) : FinancialData :=
  { fd with fundamentals := { fd.fundamentals with date := s } }

/-- Shares outstanding of a normalizer outcome (`1` on failure, so the
all-outcomes statement needs no hypothesis). -/
def sharesOf (e : Except String FinancialData) : ℚ :=
  match e with
  | .ok fd => fd.sharesOutstanding
  | .error _ => 1

/-- Did the normalizer succeed? -/
def isOkE {ε α : Type} (e : Except ε α) : Bool :=
  match e with
  | .ok _ => true
  | .error _ => false

/-- The failure message of a normalizer outcome, if any. -/
def errMsgOf {α : Type} (e : Except String α) : Option String :=
  match e with
  | .ok _ => none
  | .error m => some m

/-- The first (DCF) entry of the results list. -/
def headResult (cv : ComprehensiveValuation) : Option ValuationResult :=
  cv.results.head?

-- --- Concrete fixtures for counterexamples and witnesses ---

/-- All-zero fundamentals block for hand-built snapshots. -/
def zeroFundamentals : FundamentalData :=
  ⟨"", "", "", "", "", 0, "", 0, 0, 0, 0, 0, "", 0, 0, 0, 0, 0, 0, 0, 0, 0, 0, 0,
    0, 0, 0, 0, 0, 0, 0, 0, 0, 0⟩

/-- The spec's DCF worked example (§8): freeCashFlow 1,000,000; shares
100,000; cash = debt = 0; price 10; everything else inert. -/
def snapWorked : FinancialData :=
  { ticker := "TEST", price := 10, currency := "BRL", sharesOutstanding := 100000,
    beta := 1, wacc := 12 / 100, growthRate := 5 / 100, roe := 0, payoutRatio := 25 / 100,
    revenue := 0, ebit := 0, netIncome := 0, interestExpenses := 0, taxRate := 34 / 100,
    equity := 0, debt := 0, cashAndEquivalents := 0, investedCapital := 0,
    freeCashFlow := 1000000, depreciation := 0, volatility := 30 / 100,
    sectorPE := 8, sectorEVEBITDA := 6, currentPE := 0, currentEVEBITDA := 0,
    currentEPS := 0, rawIncome := [], rawBalance := [], rawCashFlow := [],
    rawDividends := [], fundamentals := zeroFundamentals, businessSummary := none }

/-- A loss-making firm: EPS −1, otherwise the worked snapshot. -/
def snapNegEPS : FinancialData :=
  { snapWorked with currentEPS := -1 }

/-- A snapshot on which every method prices at or below zero: deeply
negative free cash flow, EPS, EBIT and net income, heavy debt. -/
def snapAllNeg : FinancialData :=
  { snapWorked with
    freeCashFlow := -1000000, currentEPS := -1, equity := -5,
    ebit := -100, netIncome := -50, investedCapital := 100, debt := 1000 }

/-- The BASE scenario assumptions (constants.ts) with the default cost of
debt. -/
def assumptionsBase : ValuationAssumptions :=
  { riskFreeRate := 15 / 100, equityRiskPremium := 5 / 100, beta := 1, costOfDebt := 16 / 100,
    perpetualGrowth := 5 / 100, projectedRevenueGrowth := 5 / 100 }

/-- A quote row keyed in lowercase with the `.SA` exchange suffix. -/
def quoteValeLower : BrapiQuote :=
  { (default : BrapiQuote) with
    symbol := "vale3.sa", regularMarketPrice := some 25, marketCap := some 1000000 }

/-- An income row keyed `vale3.sa`. -/
def incomeValeLower : IncomeRow :=
  { symbol := "vale3.sa", period := "2023", type := none, end_date := 19700,
    net_income := some 500, ebit := some 800, total_revenue := some 5000,
    gross_profit := some 2000, interest_expense := some (-30) }

/-- A balance row keyed `vale3.sa`. -/
def balanceValeLower : BalanceRow :=
  { symbol := "vale3.sa", period := "2023", type := none, end_date := 19700,
    long_term_debt := some 300, short_long_term_debt := some 50, cash := some 120,
    short_term_investments := some 30, total_stockholder_equity := some 2500,
    total_assets := some 6000, total_current_assets := some 900,
    total_current_liabilities := some 400 }

/-- A cash-flow row keyed `vale3.sa`. -/
def cashFlowValeLower : CashFlowRow :=
  { symbol := "vale3.sa", period := "2023", type := none, end_date := 19700,
    depreciation := some 100, total_cash_from_operating_activities := some 700,
    capital_expenditures := some (-200) }

/-- Raw rows where every category is keyed `vale3.sa`: the three statement
categories resolve a `VALE3` lookup, the quote category does not. -/
def supaValeLower : SupabaseFinancials :=
  { income := [incomeValeLower], balance := [balanceValeLower],
    cashFlow := [cashFlowValeLower], brapi := [quoteValeLower], dividends := [] }

/-- A complete, resolvable bundle keyed `VALE3` (uppercase, no suffix). -/
def supaValeOk : SupabaseFinancials :=
  { income := [{ incomeValeLower with symbol := "VALE3" }],
    balance := [{ balanceValeLower with symbol := "VALE3" }],
    cashFlow := [{ cashFlowValeLower with symbol := "VALE3" }],
    brapi := [{ quoteValeLower with symbol := "VALE3" }], dividends := [] }

/-- A bundle on which shares outstanding resolve through net income ÷ EPS
with a negative net income: no market cap, no quote share count, EPS 1,
net income −100. -/
def supaNegShares : SupabaseFinancials :=
  { income := [{ incomeValeLower with symbol := "VALE3", net_income := some (-100) }],
    balance := [{ balanceValeLower with symbol := "VALE3" }],
    cashFlow := [{ cashFlowValeLower with symbol := "VALE3" }],
    brapi := [{ (default : BrapiQuote) with
      symbol := "VALE3", regularMarketPrice := some 10, earningsPerShare := some 1 }],
    dividends := [] }

-- ===== Helper lemmas =====

lemma calcDCF_nonneg (data : FinancialData) (wacc gPerp gRev : ℚ) :
    0 ≤ calcDCF data wacc gPerp gRev := by
  unfold calcDCF
  exact le_max_left 0 _

lemma calcEVA_nonneg (data : FinancialData) (wacc gRev : ℚ) :
    0 ≤ calcEVA data wacc gRev := by
  unfold calcEVA
  exact le_max_left 0 _

lemma calcGraham_nonneg (data : FinancialData) : 0 ≤ calcGraham data := by
  simp only [calcGraham]
  split_ifs
  all_goals first
  | exact le_rfl
  | exact Rat.sqrt_nonneg _

/-- C1 (amended): for every snapshot and assumptions with WACC strictly
greater than perpetual growth, `calcDCF` returns the value of the
recurrence in which the year-`i` projected free cash flow is the base flow
compounded `i + 1` times at the revenue-growth rate (the code compounds
once before the 5-year loop), each year discounted at WACC; the terminal
value builds on the base flow compounded 6 times, grown one more period at
perpetual growth and divided by (WACC − perpetual growth), discounted back
5 periods; the per-share result is floored at 0. -/
theorem C1_dcf_follows_compounded_recurrence (data : FinancialData) (wacc gPerp gRev : ℚ)
    (_h : gPerp < wacc) :
    calcDCF data wacc gPerp gRev = refDCFCompounded data wacc gPerp gRev := by
  unfold calcDCF refDCFCompounded
  simp only [List.foldl]
  congr 1
  ring

/-- C1 counterexample: at the spec's own worked example (freeCashFlow
1,000,000, revenueGrowth = perpetualGrowth = 0.05, WACC = 0.12, shares
100,000, cash = debt = 0) the spec's recurrence gives 150 per share while
`calcDCF` gives 157.5 — a 5% relative gap, far outside the claimed 1e-6
relative tolerance. -/
theorem C1_spec_recurrence_refuted :
    specDCF snapWorked (12 / 100) (5 / 100) (5 / 100) = 150 ∧
    calcDCF snapWorked (12 / 100) (5 / 100) (5 / 100) = 315 / 2 ∧
    (1 / 1000000 : ℚ) * 150 < 315 / 2 - 150 := by
  refine ⟨?_, ?_, ?_⟩ <;> with_unfolding_all decide

/-- C1 witness: the amended DCF identity instantiated at the worked
example, with the hypothesis 0.05 < 0.12 discharged concretely. -/
theorem C1_dcf_follows_compounded_recurrence_witness :
    ((5 / 100 : ℚ) < 12 / 100) ∧
      calcDCF snapWorked (12 / 100) (5 / 100) (5 / 100) =
        refDCFCompounded snapWorked (12 / 100) (5 / 100) (5 / 100) :=
  ⟨by with_unfolding_all decide,
    C1_dcf_follows_compounded_recurrence snapWorked _ _ _ (by with_unfolding_all decide)⟩

/-- C2 counterexample: on a valid snapshot with EPS −1 (price 10, shares
100,000) the results list of `performValuation` contains a strictly
negative fair value — the Gordon method returns −7 because `calcGordon`
has no floor at 0. -/
theorem C2_negative_fair_value_exists :
    ((performValuation snapNegEPS assumptionsBase none).results.map
      (fun r => r.fairValue)).any (fun v => v < 0) = true := by
  with_unfolding_all decide

/-- C2 (amended): the DCF, EVA and Graham entries of the results list are
always ≥ 0 (these three are floored or guarded); the Gordon and Multiples
methods carry no floor and can go negative on negative earnings. -/
theorem C2_dcf_eva_graham_nonneg (data : FinancialData) (a : ValuationAssumptions)
    (cw : Option ValuationWeights) :
    ∀ r ∈ (performValuation data a cw).results,
      (r.method = .DCF ∨ r.method = .EVA ∨ r.method = .GRAHAM) → 0 ≤ r.fairValue := by
  intro r hr hm
  simp only [performValuation, List.mem_cons, List.not_mem_nil, or_false] at hr
  rcases hr with rfl | rfl | rfl | rfl | rfl
  · exact calcDCF_nonneg _ _ _ _
  · rcases hm with h | h | h <;> simp at h
  · exact calcEVA_nonneg _ _ _
  · rcases hm with h | h | h <;> simp at h
  · exact calcGraham_nonneg _

/-- C2 witness: the amended non-negativity applied to the concrete DCF
entry (the head of the results list) of a concrete valuation run. -/
theorem C2_dcf_eva_graham_nonneg_witness :
    ((performValuation snapWorked assumptionsBase none).results.headI ∈
      (performValuation snapWorked assumptionsBase none).results) ∧
    (performValuation snapWorked assumptionsBase none).results.headI.method = .DCF ∧
    0 ≤ (performValuation snapWorked assumptionsBase none).results.headI.fairValue :=
  ⟨by with_unfolding_all decide, by with_unfolding_all decide,
    C2_dcf_eva_graham_nonneg snapWorked assumptionsBase none _
      (by with_unfolding_all decide) (Or.inl (by with_unfolding_all decide))⟩

/-- C3: for every snapshot and assumptions the sensitivity matrix of
`performValuation` is 5×5; the cell at row `i`, column `j` (zero-indexed)
carries WACC = base WACC + (i − 2)·0.005 and growth = base perpetual
growth + (j − 2)·0.005 — rows ascend by WACC step and columns by growth
step in 0.005 steps over indices −2..+2 — and its fair value is `calcDCF`
at exactly those perturbed rates with revenue growth held fixed; the
center cell (2, 2) equals the base-case DCF fair value (the first entry of
the results list) exactly. -/
theorem C3_sensitivity_grid_shape (data : FinancialData) (a : ValuationAssumptions)
    (cw : Option ValuationWeights) :
    (performValuation data a cw).sensitivityMatrix.length = 5 ∧
    (∀ row ∈ (performValuation data a cw).sensitivityMatrix, row.length = 5) ∧
    (∀ i j : ℕ, i < 5 → j < 5 → ∃ c : SensitivityCell,
      cellAt (performValuation data a cw).sensitivityMatrix i j = some c ∧
      c.wacc = (calculateWacc data a).wacc + ((i : ℚ) - 2) * (5 / 1000) ∧
      c.growth = a.perpetualGrowth + ((j : ℚ) - 2) * (5 / 1000) ∧
      c.fairValue = calcDCF data c.wacc c.growth a.projectedRevenueGrowth) ∧
    (cellAt (performValuation data a cw).sensitivityMatrix 2 2).map (fun c => c.fairValue) =
      some (calcDCF data (calculateWacc data a).wacc a.perpetualGrowth
        a.projectedRevenueGrowth) ∧
    (headResult (performValuation data a cw)).map (fun r => (r.method, r.fairValue)) =
      some (ValuationMethodType.DCF,
        calcDCF data (calculateWacc data a).wacc a.perpetualGrowth a.projectedRevenueGrowth) := by
  refine ⟨rfl, ?_, ?_, ?_, rfl⟩
  · intro row hrow
    simp only [performValuation, List.mem_map, List.mem_cons, List.not_mem_nil, or_false] at hrow
    obtain ⟨wStep, hw, rfl⟩ := hrow
    simp [List.length_map]
  · intro i j hi hj
    interval_cases i <;> interval_cases j <;>
      exact ⟨_, rfl, by push_cast; ring, by push_cast; ring, rfl⟩
  · show (cellAt _ 2 2).map _ = _
    have h22 : cellAt (performValuation data a cw).sensitivityMatrix 2 2 =
        some { wacc := (calculateWacc data a).wacc + (0 : ℤ) * (5 / 1000),
               growth := a.perpetualGrowth + (0 : ℤ) * (5 / 1000),
               fairValue := calcDCF data
                 ((calculateWacc data a).wacc + (0 : ℤ) * (5 / 1000))
                 (a.perpetualGrowth + (0 : ℤ) * (5 / 1000)) a.projectedRevenueGrowth } := rfl
    rw [h22]
    norm_num

/-- C3 witness: the grid-cell characterisation instantiated at the worked
snapshot and cell (0, 0), with both index bounds discharged concretely. -/
theorem C3_sensitivity_grid_shape_witness :
    (0 < 5) ∧ (∃ c : SensitivityCell,
      cellAt (performValuation snapWorked assumptionsBase none).sensitivityMatrix 0 0 = some c ∧
      c.wacc = (calculateWacc snapWorked assumptionsBase).wacc + ((0 : ℚ) - 2) * (5 / 1000) ∧
      c.growth = assumptionsBase.perpetualGrowth + ((0 : ℚ) - 2) * (5 / 1000) ∧
      c.fairValue = calcDCF snapWorked c.wacc c.growth assumptionsBase.projectedRevenueGrowth) :=
  ⟨by decide, by
    have h := (C3_sensitivity_grid_shape snapWorked assumptionsBase none).2.2.1 0 0
      (by decide) (by decide)
    simpa using h⟩

lemma weighted_scale (v1 v2 v3 v4 v5 p q r s t c : ℚ) (hc : c ≠ 0) :
    (v1 * (c * p) + v2 * (c * q) + v3 * (c * r) + v4 * (c * s) + v5 * (c * t)) /
      (c * p + c * q + c * r + c * s + c * t) =
    (v1 * p + v2 * q + v3 * r + v4 * s + v5 * t) / (p + q + r + s + t) := by
  have e1 : v1 * (c * p) + v2 * (c * q) + v3 * (c * r) + v4 * (c * s) + v5 * (c * t) =
      c * (v1 * p + v2 * q + v3 * r + v4 * s + v5 * t) := by ring
  have e2 : c * p + c * q + c * r + c * s + c * t = c * (p + q + r + s + t) := by ring
  rw [e1, e2, mul_div_mul_left _ _ hc]

/-- C4: multiplying all five weights of a profile with positive sum by any
positive constant leaves both the weighted fair value and every normalized
per-method weight of `performValuation` unchanged. -/
theorem C4_weight_scaling_invariance (data : FinancialData) (a : ValuationAssumptions)
    (w : ValuationWeights) (c : ℚ) (hc : 0 < c) (_hw : 0 < totalWeight w) :
    (performValuation data a (some (scaleWeights c w))).weightedFairValue =
      (performValuation data a (some w)).weightedFairValue ∧
    (performValuation data a (some (scaleWeights c w))).results.map (fun r => r.weight) =
      (performValuation data a (some w)).results.map (fun r => r.weight) := by
  have hc' : c ≠ 0 := ne_of_gt hc
  constructor
  · simp only [performValuation, Option.getD, scaleWeights, totalWeight]
    exact weighted_scale _ _ _ _ _ _ _ _ _ _ _ hc'
  · simp only [performValuation, Option.getD, scaleWeights, totalWeight, List.map]
    have e2 : c * w.DCF + c * w.GORDON + c * w.EVA + c * w.MULTIPLES + c * w.GRAHAM =
        c * (w.DCF + w.GORDON + w.EVA + w.MULTIPLES + w.GRAHAM) := by ring
    simp only [e2, mul_div_mul_left _ _ hc']

/-- C4 witness: scaling the MATURE profile by 3 on a concrete snapshot,
with positivity of the constant and of the weight sum discharged
concretely. -/
theorem C4_weight_scaling_invariance_witness :
    ((0 : ℚ) < 3) ∧ (0 < totalWeight DEFAULT_WEIGHTS_MATURE) ∧
    ((performValuation snapWorked assumptionsBase
        (some (scaleWeights 3 DEFAULT_WEIGHTS_MATURE))).weightedFairValue =
      (performValuation snapWorked assumptionsBase
        (some DEFAULT_WEIGHTS_MATURE)).weightedFairValue ∧
    (performValuation snapWorked assumptionsBase
        (some (scaleWeights 3 DEFAULT_WEIGHTS_MATURE))).results.map (fun r => r.weight) =
      (performValuation snapWorked assumptionsBase
        (some DEFAULT_WEIGHTS_MATURE)).results.map (fun r => r.weight)) :=
  ⟨by with_unfolding_all decide, by with_unfolding_all decide,
    C4_weight_scaling_invariance snapWorked assumptionsBase DEFAULT_WEIGHTS_MATURE 3
      (by with_unfolding_all decide) (by with_unfolding_all decide)⟩

/-- C5 counterexample: the quote-row lookup of line 69 is case-SENSITIVE
in both its exact and its prefix probe, so a quote keyed `vale3.sa` is NOT
resolved for the ticker `VALE3`; on a bundle whose four categories are all
keyed `vale3.sa` the normalizer therefore fails reporting the quote
(`cotação`) as missing even though the three statement categories
resolve. -/
theorem C5_quote_lookup_case_sensitive :
    brapiLookup [quoteValeLower] "VALE3" = none ∧
    errMsgOf (getFinancialData "VALE3" supaValeLower "x") =
      some "Dados incompletos para VALE3 (faltando: cotação)" := by
  constructor <;> with_unfolding_all decide

/-- C5 (amended): for the three statement categories (income, balance,
cash flow), which go through `filterByTicker`, rows keyed `vale3.sa`
(lowercase, with the `.SA` suffix) are resolved by a lookup for `VALE3`:
the exact case-insensitive match fails and the fallback prefix match on
`VALE` (share-class digits stripped) returns all the rows. -/
theorem C5_statement_rows_resolve_variant {α : Type} (sym : α → String) (rows : List α)
    (hsym : ∀ r ∈ rows, sym r = "vale3.sa") :
    filterByTicker sym rows "VALE3" = rows := by
  unfold filterByTicker
  have hex : (rows.filter (fun d => (sym d).toUpper == "VALE3".toUpper)) = [] := by
    rw [List.filter_eq_nil_iff]
    intro a ha
    rw [hsym a ha]
    with_unfolding_all decide
  rw [hex]
  simp only [List.length_nil, gt_iff_lt, lt_self_iff_false, if_false]
  rw [List.filter_eq_self]
  intro a ha
  rw [hsym a ha]
  with_unfolding_all decide

/-- C5 witness: the variant-resolution theorem applied to a concrete
income row keyed `vale3.sa`, its symbol hypothesis discharged
concretely. -/
theorem C5_statement_rows_resolve_variant_witness :
    (∀ r ∈ [incomeValeLower], (fun i : IncomeRow => i.symbol) r = "vale3.sa") ∧
    filterByTicker (fun i : IncomeRow => i.symbol) [incomeValeLower] "VALE3" =
      [incomeValeLower] :=
  ⟨by with_unfolding_all decide,
    C5_statement_rows_resolve_variant _ _ (by with_unfolding_all decide)⟩

/-- C6 counterexample: on one fixed row bundle, two runs of the normalizer
at different wall-clock dates return different snapshots — the
`fundamentals.date` field copies the current date (valuation.ts line 137),
so the output is not a function of the rows alone. -/
theorem C6_normalizer_reads_clock :
    ((getFinancialData "VALE3" supaValeOk "07/10/2025").toOption.map
      (fun fd => fd.fundamentals.date)) = some "07/10/2025" ∧
    ((getFinancialData "VALE3" supaValeOk "08/10/2025").toOption.map
      (fun fd => fd.fundamentals.date)) = some "08/10/2025" ∧
    decide ((getFinancialData "VALE3" supaValeOk "07/10/2025").toOption.map
        (fun fd => fd.fundamentals.date) =
      (getFinancialData "VALE3" supaValeOk "08/10/2025").toOption.map
        (fun fd => fd.fundamentals.date)) = false := by
  refine ⟨?_, ?_, ?_⟩ <;> with_unfolding_all decide

/-- C6 (amended): the normalizer is deterministic in everything except the
`fundamentals.date` stamp: for a fixed ticker and fixed raw rows, runs at
any two wall-clock instants agree exactly after that single field is
overwritten — no other field depends on time or any other
non-deterministic source. -/
theorem C6_deterministic_up_to_date_field (t : String) (supa : SupabaseFinancials)
    (now₁ now₂ : String) :
    (getFinancialData t supa now₁).map (fun fd => setFundDate fd "") =
      (getFinancialData t supa now₂).map (fun fd => setFundDate fd "") := by
  simp only [getFinancialData]
  by_cases h : missingAny supa (normTicker t) = true
  · rw [if_pos h, if_pos h]
  · rw [if_neg h, if_neg h]
    simp only [Except.map]
    congr 1

/-- C7 counterexample: with no market cap, no quote share count, EPS 1 and
net income −100, the shares fall-through of lines 94-98 computes
sharesOutstanding = −100 / 1 = −100 < 0: the guard `if (!shares)` only
catches 0, so the snapshot invariant "shares outstanding > 0" fails. -/
theorem C7_negative_shares_possible :
    (getFinancialData "VALE3" supaNegShares "x").toOption.map
      (fun fd => fd.sharesOutstanding) = some (-100) ∧ ((-100 : ℚ) < 0) := by
  constructor <;> with_unfolding_all decide

lemma ite_shares_default_pos_or_neg (x : ℚ) :
    0 < (if x = 0 then (1000000 : ℚ) else x) ∨ (if x = 0 then (1000000 : ℚ) else x) < 0 := by
  split_ifs with h
  · left
    norm_num
  · rcases lt_or_gt_of_ne h with h' | h'
    · right
      exact h'
    · left
      exact h'

lemma computeShares_pos_or_neg (mCap price : ℚ) (brapi : BrapiQuote)
    (baseIncome : Option IncomeRow) :
    0 < computeShares mCap price brapi baseIncome ∨
      computeShares mCap price brapi baseIncome < 0 := by
  unfold computeShares
  exact ite_shares_default_pos_or_neg _

/-- C7 (amended): every snapshot the normalizer produces has
sharesOutstanding ≠ 0 (strictly positive or strictly negative, never
zero), so downstream per-share division never divides by zero; the
synthetic default 1,000,000 applies exactly when every source resolves to
0, but a negative net-income ÷ EPS derivation can leave shares negative
rather than positive.  (`sharesOf` maps a failed run to 1 so the statement
needs no success hypothesis.) -/
theorem C7_shares_never_zero (t : String) (supa : SupabaseFinancials) (now : String) :
    0 < sharesOf (getFinancialData t supa now) ∨
      sharesOf (getFinancialData t supa now) < 0 := by
  simp only [getFinancialData]
  by_cases h : missingAny supa (normTicker t) = true
  · rw [if_pos h]
    left
    simp only [sharesOf]
    norm_num
  · rw [if_neg h]
    dsimp only [sharesOf]
    exact computeShares_pos_or_neg _ _ _ _

lemma not_or4 (a b c d : Bool) : (!a && !b && !c && !d) = !(a || b || c || d) := by
  cases a <;> cases b <;> cases c <;> cases d <;> rfl

lemma missingAny_ignores_dividends (supa : SupabaseFinancials) (divs : List DividendRow)
    (t : String) :
    missingAny { supa with dividends := divs } t = missingAny supa t := by
  simp [missingAny]

/-- C8: given a fetched row bundle, the normalizer succeeds exactly when
all four of {quote, income statement, balance sheet, cash flow} have a row
for the resolved ticker after candidate-symbol matching; on failure the
error message names exactly the missing categories (cotação, DRE, balanço,
fluxo de caixa, in that order); and replacing the dividend rows never
changes success or failure. -/
theorem C8_missing_data_failure (ticker : String) (supa : SupabaseFinancials) (now : String)
    (divs : List DividendRow) :
    (isOkE (getFinancialData ticker supa now) =
      (!(brapiLookup supa.brapi (normTicker ticker)).isNone &&
       !(filterByTicker (fun i => i.symbol) supa.income (normTicker ticker)).isEmpty &&
       !(filterByTicker (fun b => b.symbol) supa.balance (normTicker ticker)).isEmpty &&
       !(filterByTicker (fun c => c.symbol) supa.cashFlow (normTicker ticker)).isEmpty)) ∧
    (errMsgOf (getFinancialData ticker supa now) =
      (if missingAny supa (normTicker ticker) then
        some ("Dados incompletos para " ++ normTicker ticker ++ " (faltando: " ++
          String.intercalate ", "
            ((if (brapiLookup supa.brapi (normTicker ticker)).isNone then ["cotação"] else []) ++
             (if (filterByTicker (fun i => i.symbol) supa.income
                (normTicker ticker)).isEmpty then ["DRE"] else []) ++
             (if (filterByTicker (fun b => b.symbol) supa.balance
                (normTicker ticker)).isEmpty then ["balanço"] else []) ++
             (if (filterByTicker (fun c => c.symbol) supa.cashFlow
                (normTicker ticker)).isEmpty then ["fluxo de caixa"] else [])) ++ ")")
      else none)) ∧
    isOkE (getFinancialData ticker { supa with dividends := divs } now) =
      isOkE (getFinancialData ticker supa now) := by
  refine ⟨?_, ?_, ?_⟩
  · simp only [getFinancialData]
    rw [not_or4]
    by_cases h : missingAny supa (normTicker ticker) = true
    · rw [if_pos h]
      unfold missingAny at h
      rw [h]
      rfl
    · rw [if_neg h]
      have h' : missingAny supa (normTicker ticker) = false := Bool.eq_false_iff.mpr h
      unfold missingAny at h'
      rw [h']
      rfl
  · simp only [getFinancialData]
    by_cases h : missingAny supa (normTicker ticker) = true
    · rw [if_pos h, if_pos h]
      simp only [errMsgOf, missingMessage]
    · rw [if_neg h, if_neg h]
      rfl
  · simp only [getFinancialData, missingAny_ignores_dividends]
    by_cases h : missingAny supa (normTicker ticker) = true
    · rw [if_pos h, if_pos h]
      rfl
    · rw [if_neg h, if_neg h]
      rfl

lemma jsMinList_eq_minimum (l : List ℚ) : jsMinList l = l.minimum := by
  induction l with
  | nil => rfl
  | cons a l ih =>
    have step : jsMinList (a :: l) =
        match jsMinList l with
        | none => some a
        | some y => some (min a y) := rfl
    rw [step, List.minimum_cons, ← ih]
    cases jsMinList l with
    | top => exact (min_eq_left le_top).symm
    | coe y => exact WithTop.coe_min a y

lemma jsMaxList_eq_maximum (l : List ℚ) : jsMaxList l = l.maximum := by
  induction l with
  | nil => rfl
  | cons a l ih =>
    have step : jsMaxList (a :: l) =
        match jsMaxList l with
        | none => some a
        | some y => some (max a y) := rfl
    rw [step, List.maximum_cons, ← ih]
    cases jsMaxList l with
    | bot => exact (max_eq_left bot_le).symm
    | coe y => exact WithBot.coe_max a y

lemma performValuation_priceRange_min (data : FinancialData) (a : ValuationAssumptions)
    (cw : Option ValuationWeights) :
    (performValuation data a cw).priceRange.min =
      jsMinList (((performValuation data a cw).results.map (fun r => r.fairValue)).filter
        (fun v => v > 0)) := rfl

lemma performValuation_priceRange_max (data : FinancialData) (a : ValuationAssumptions)
    (cw : Option ValuationWeights) :
    (performValuation data a cw).priceRange.max =
      jsMaxList (((performValuation data a cw).results.map (fun r => r.fairValue)).filter
        (fun v => v > 0)) := rfl

/-- C9: for every snapshot and assumptions, priceRange.min and
priceRange.max of `performValuation` are the minimum and maximum over only
the strictly positive per-method fair values — entries that are 0 or
negative are excluded; in particular with exactly one degenerate 0 the
range is over the remaining four positive values. -/
theorem C9_price_range_over_positive_values (data : FinancialData) (a : ValuationAssumptions)
    (cw : Option ValuationWeights) :
    (performValuation data a cw).priceRange.min =
      (((performValuation data a cw).results.map (fun r => r.fairValue)).filter
        (fun v => v > 0)).minimum ∧
    (performValuation data a cw).priceRange.max =
      (((performValuation data a cw).results.map (fun r => r.fairValue)).filter
        (fun v => v > 0)).maximum :=
  ⟨by rw [performValuation_priceRange_min, jsMinList_eq_minimum],
   by rw [performValuation_priceRange_max, jsMaxList_eq_maximum]⟩

/-- C10: when every per-method fair value is ≤ 0, `performValuation` still
returns a complete result (five results, a 5×5 grid), but the positive
value set is empty, so priceRange.min is `⊤` (+Infinity, the JS
`Math.min()` of no arguments) and priceRange.max is `⊥` (−Infinity). -/
theorem C10_all_nonpositive_empty_range (data : FinancialData) (a : ValuationAssumptions)
    (cw : Option ValuationWeights)
    (h : ∀ r ∈ (performValuation data a cw).results, r.fairValue ≤ 0) :
    (performValuation data a cw).priceRange.min = ⊤ ∧
    (performValuation data a cw).priceRange.max = ⊥ ∧
    (performValuation data a cw).results.length = 5 ∧
    (performValuation data a cw).sensitivityMatrix.length = 5 := by
  have hfil : ((performValuation data a cw).results.map (fun r => r.fairValue)).filter
      (fun v => v > 0) = [] := by
    rw [List.filter_eq_nil_iff]
    intro v hv
    simp only [List.mem_map] at hv
    obtain ⟨r, hr, rfl⟩ := hv
    simp only [decide_eq_true_eq, not_lt]
    exact h r hr
  refine ⟨?_, ?_, rfl, rfl⟩
  · rw [performValuation_priceRange_min, hfil]
    rfl
  · rw [performValuation_priceRange_max, hfil]
    rfl

/-- C10 witness: a concrete loss-making snapshot on which all five methods
price at or below zero, its all-non-positive hypothesis discharged
concretely. -/
theorem C10_all_nonpositive_empty_range_witness :
    (∀ r ∈ (performValuation snapAllNeg assumptionsBase none).results, r.fairValue ≤ 0) ∧
    ((performValuation snapAllNeg assumptionsBase none).priceRange.min = ⊤ ∧
     (performValuation snapAllNeg assumptionsBase none).priceRange.max = ⊥ ∧
     (performValuation snapAllNeg assumptionsBase none).results.length = 5 ∧
     (performValuation snapAllNeg assumptionsBase none).sensitivityMatrix.length = 5) :=
  ⟨by with_unfolding_all decide,
    C10_all_nonpositive_empty_range snapAllNeg assumptionsBase none
      (by with_unfolding_all decide)⟩
